import Mathlib

/-!
Verification of the service message router and request/response correlation
layer of the `messaging` repository, via a shallow embedding of the Python
sources in `Files used in project/` (messaging_broker.py, frontend-service.py,
simple_service_broker.py, backend-service-2.py, rabbitmq_client.py).
-/

namespace Messaging

/-- The closed set of service identities {frontend, backend, database}
(spec §3 ServiceIdentity; messaging_broker.py uses the corresponding
service-name strings). -/
inductive Service where
  | frontend
  | backend
  | database
deriving DecidableEq, Repr, Fintype

/-- The `service_name` string stored by `MessageBroker.__init__`. -/
def Service.name : Service → String
  | .frontend => "frontend"
  | .backend => "backend"
  | .database => "database"

/-- Routing key computed at send time: `send_to_frontend` / `send_to_backend`
/ `send_to_database` in messaging_broker.py each build
`f"{self.service_name}.to.{target}"`. -/
def routingKey (source target : Service) : String :=
  source.name ++ ".to." ++ target.name

/-- Split a character list at the dots, mirroring Python
`routing_key.split('.')` used by `_send_targeted_message` and the
spec's "last dotted segment" inverse. Structural so the kernel can
evaluate it. -/
def splitDots : List Char → List (List Char)
  | [] => [[]]
  | c :: cs =>
      if c = '.' then [] :: splitDots cs
      else
        match splitDots cs with
        | [] => [[c]]
        | seg :: rest => (c :: seg) :: rest

/-- The dotted segments of a string. -/
def dotSegments (s : String) : List String :=
  (splitDots s.data).map String.mk

/-- The last dotted segment of a string (the spec's key → target inverse). -/
def lastDotSegment (s : String) : String :=
  (dotSegments s).getLastD ""

/-- Structured message values: the JSON data carried in message bodies
(`json.dumps` / `json.loads` in the Python sources). -/
inductive Json where
  | null
  | bool (b : Bool)
  | num (n : Int)
  | str (s : String)
  | arr (elems : List Json)
  | obj (fields : List (String × Json))

/-- Python-dict lookup `m.get(k)` on an association list with unique keys. -/
def lookupKey {β : Type} (m : List (String × β)) (k : String) : Option β :=
  match m with
  | [] => none
  | (k', v) :: rest => if k' = k then some v else lookupKey rest k

/-- Python-dict membership `k in m`. -/
def containsKey {β : Type} (m : List (String × β)) (k : String) : Bool :=
  (lookupKey m k).isSome

/-- Python-dict assignment `m[k] = v`: overwrite in place if the key exists
(keeping its position, as CPython dicts do), else append. -/
def setKey {β : Type} (m : List (String × β)) (k : String) (v : β) :
    List (String × β) :=
  match m with
  | [] => [(k, v)]
  | (k', v') :: rest =>
      if k' = k then (k, v) :: rest else (k', v') :: setKey rest k v

/-- Python-dict deletion `del m[k]` (keys are unique in a dict, so
filtering is the same as deleting the one occurrence). -/
def removeKey {β : Type} (m : List (String × β)) (k : String) :
    List (String × β) :=
  m.filter (fun kv => kv.1 ≠ k)

/-- A queue-to-exchange binding as declared by
`MessageBroker.bind_queue_to_exchange`. -/
structure Binding where
  queue : String
  exchange : String
  pattern : String
deriving DecidableEq, Repr

/-- One published message as handed to `channel.basic_publish` by
`MessageBroker._send_targeted_message`: exchange, routing key, the
`correlation_id` property, the `source_service` / `target_service`
headers, and the JSON body. -/
structure Publish where
  exchange : String
  routingKey : String
  correlationId : String
  headerSource : String
  headerTarget : String
  body : List (String × Json)

/-- An interaction with the message fabric (RabbitMQ channel operation). -/
inductive FabricAction where
  | publish (p : Publish)
  | declareQueue (queue : String)
  | declareExchange (exchange : String)
  | bindQueue (b : Binding)

/-- Outcome of the underlying `basic_publish` call, an input of the
embedding: the broker either accepts the publish or raises. -/
inductive PublishOutcome where
  | ok
  | err (e : String)
deriving DecidableEq, Repr

/-- The in-place mutation `_send_targeted_message` performs on a dict
message before serialising it:
`message['source_service'] = self.service_name`,
`message['target_service'] = target`,
`message['timestamp'] = datetime.now().isoformat()`. -/
def wrapMessage (message : List (String × Json))
    (serviceName target timestamp : String) : List (String × Json) :=
  setKey
    (setKey
      (setKey message "source_service" (Json.str serviceName))
      "target_service" (Json.str target))
    "timestamp" (Json.str timestamp)

/-- `MessageBroker._send_targeted_message`: splits the routing key as
`source, _, target = routing_key.split('.')` (a ValueError if the key is
not three dotted parts propagates out of the method), mutates the dict
message with source/target/timestamp, generates `message_id` (modelled as
the input `mid`, since `uuid.uuid4()` is environmental), publishes to the
service exchange, and returns the message id; a publish failure is
re-raised (`Except.error`). The returned list holds the successful
fabric interactions. -/
def sendTargetedMessage (serviceName : String)
    (message : List (String × Json)) (rk : String) (mid ts : String)
    (pub : PublishOutcome) : List FabricAction × Except String String :=
  match dotSegments rk with
  | [_source, _to, target] =>
      let wrapped := wrapMessage message serviceName target ts
      match pub with
      | .ok =>
          ([FabricAction.publish
              { exchange := "service_exchange", routingKey := rk,
                correlationId := mid, headerSource := serviceName,
                headerTarget := target, body := wrapped }],
            Except.ok mid)
      | .err e => ([], Except.error e)
  | _ => ([], Except.error "ValueError: not enough values to unpack")

/-- `MessageBroker.send_to_frontend` / `send_to_backend` /
`send_to_database`: build `f"{self.service_name}.to.{target}"` and call
`_send_targeted_message`. -/
def sendTo (serviceName : String) (target : Service)
    (message : List (String × Json)) (mid ts : String)
    (pub : PublishOutcome) : List FabricAction × Except String String :=
  sendTargetedMessage serviceName message
    (serviceName ++ ".to." ++ target.name) mid ts pub

/-- The valid target list checked by `ServiceBroker.send_message`
(`['frontend', 'backend', 'database']`). -/
def validServices : List String := ["frontend", "backend", "database"]

/-- The `if to_service == 'frontend' ... elif ... elif ...` dispatch in
`ServiceBroker.send_message`. -/
def serviceOfName (s : String) : Option Service :=
  if s = "frontend" then some Service.frontend
  else if s = "backend" then some Service.backend
  else if s = "database" then some Service.database
  else none

/-- `ServiceBroker.send_message`: rejects an unknown target before any
broker call and returns `None`; otherwise builds
`{"type": message_type, **data}` and delegates to the matching
`send_to_*` method, returning the message id on success and `None` when
the send raises (the `except` branch logs and returns `None`). -/
def sendMessage (svc : Service) (toService messageType : String)
    (data : List (String × Json)) (mid ts : String)
    (pub : PublishOutcome) : List FabricAction × Option String :=
  if toService ∉ validServices then ([], none)
  else
    let message :=
      List.foldl (fun m kv => setKey m kv.1 kv.2)
        [("type", Json.str messageType)] data
    match serviceOfName toService with
    | some target =>
        match sendTo svc.name target message mid ts pub with
        | (tr, Except.ok r) => (tr, some r)
        | (tr, Except.error _) => (tr, none)
    | none => ([], none)

/-- The publish record `_send_targeted_message` hands to the fabric when
the caller is a known service identity. -/
def publishOf (source target : Service) (message : List (String × Json))
    (mid ts : String) : Publish :=
  { exchange := "service_exchange"
    routingKey := routingKey source target
    correlationId := mid
    headerSource := source.name
    headerTarget := target.name
    body := wrapMessage message source.name target.name ts }

/-- Acknowledgement operations a consumer callback performs on the
channel: `basic_ack` and `basic_nack(requeue=...)`. -/
inductive AckAction where
  | ack
  | nack (requeue : Bool)
deriving DecidableEq, Repr

/-- State of `FrontendService`: the `pending_requests` dict mapping
request ids to their `{'time': ..., 'params': ...}` entries, plus the
current wall-clock time (`time.time()`, modelled as a Nat). -/
structure FrontendState where
  pending : List (String × Json)
  now : Nat

/-- The initial frontend service state: `self.pending_requests = {}`. -/
def frontendInit : FrontendState := { pending := [], now := 0 }

/-- The `{'time': time.time(), 'params': search_params}` entry stored in
`pending_requests` by `FrontendService.send_search_request`. -/
def pendingEntry (now : Nat) (params : Json) : Json :=
  Json.obj [("time", Json.num (Int.ofNat now)), ("params", params)]

/-- The request message built by `FrontendService.send_search_request`. -/
def searchRequestMessage (rid : String) (params : Json) :
    List (String × Json) :=
  [("type", Json.str "user_action"), ("action", Json.str "search"),
    ("parameters", params), ("request_id", Json.str rid)]

/-- `FrontendService.send_search_request`: generates a request id
(modelled as the input `rid`, since `uuid.uuid4()` is environmental),
stores the pending entry, and sends the message to the backend.  Returns
the new state and the message handed to `send_to_backend`. -/
def sendSearchRequest (s : FrontendState) (rid : String) (params : Json) :
    FrontendState × List (String × Json) :=
  ({ s with pending := setKey s.pending rid (pendingEntry s.now params) },
    searchRequestMessage rid params)

/-- Passage of wall-clock time.  Faithful to the source: no code in
`FrontendService` runs on time passage — there is no sweep, timer or
expiry check over `pending_requests` anywhere in the repository, so a
tick changes only the clock. -/
def tick (s : FrontendState) (dt : Nat) : FrontendState :=
  { s with now := s.now + dt }

/-- Outcome of `FrontendService.handle_search_results`. -/
inductive SearchOutcome where
  | delivered (requestId : String) (results : Json) (count : Json)
  | unknownRequest (requestId : Option Json)

/-- `FrontendService.handle_search_results`: reads
`message.get('request_id')`, `message.get('results', [])` and
`message.get('count', 0)`; if the id is a key of `pending_requests` the
entry is deleted and the results are delivered to the UI, otherwise a
warning is logged and the table is untouched.  (A missing or non-string
request id is never a key of the string-keyed dict.) -/
def handleSearchResults (pending : List (String × Json))
    (message : List (String × Json)) :
    List (String × Json) × SearchOutcome :=
  match lookupKey message "request_id" with
  | some (Json.str rid) =>
      if containsKey pending rid then
        (removeKey pending rid,
          SearchOutcome.delivered rid
            ((lookupKey message "results").getD (Json.arr []))
            ((lookupKey message "count").getD (Json.num 0)))
      else
        (pending, SearchOutcome.unknownRequest (some (Json.str rid)))
  | other => (pending, SearchOutcome.unknownRequest other)

/-- The `message.get('type') == '<literal>'` comparisons dispatching in
`FrontendService.process_message`. -/
def isType (message : List (String × Json)) (t : String) : Bool :=
  match lookupKey message "type" with
  | some (Json.str s) => s = t
  | _ => false

/-- What `FrontendService.process_message` did with a delivery. -/
inductive FrontendOutcome where
  | eventNotification
  | searchResult (o : SearchOutcome)
  | operationStatus
  | actionReceived
  | unknownType (t : Option Json)
  | parseError

/-- `FrontendService.process_message`: parse the body (`body = none`
models a `json.loads` failure, which the `except` branch logs and still
acks), dispatch on `message.get('type')` — only the `search_results`
branch touches `pending_requests` — and always `basic_ack` exactly once,
in the `try` block on success and in the `except` branch on error. -/
def frontendProcessMessage (s : FrontendState)
    (body : Option (List (String × Json))) :
    FrontendState × FrontendOutcome × List AckAction :=
  match body with
  | none => (s, FrontendOutcome.parseError, [AckAction.ack])
  | some message =>
      if isType message "event_notification" then
        (s, FrontendOutcome.eventNotification, [AckAction.ack])
      else if isType message "search_results" then
        let r := handleSearchResults s.pending message
        ({ s with pending := r.1 }, FrontendOutcome.searchResult r.2,
          [AckAction.ack])
      else if isType message "operation_status" then
        (s, FrontendOutcome.operationStatus, [AckAction.ack])
      else if isType message "action_received" then
        (s, FrontendOutcome.actionReceived, [AckAction.ack])
      else
        (s, FrontendOutcome.unknownType (lookupKey message "type"),
          [AckAction.ack])

/-- `MessageBroker.consume_with_callback`'s `callback_wrapper`: invoke
the registered callback; if it raises, log the error and `basic_ack` so
the message is not requeued indefinitely.  On the success path the
wrapper does not ack — it relies on the callback acking itself.
`innerAcks` are the ack operations the callback performed before
returning or raising, `innerRaises` whether it raised. -/
def callbackWrapper (innerAcks : List AckAction) (innerRaises : Bool) :
    List AckAction :=
  if innerRaises then innerAcks ++ [AckAction.ack] else innerAcks

/-- Ack discipline of `FrontendService.process_message` and
`BackendService.process_message` (backend-service-2.py): the `try` block
ends with `basic_ack` and the `except` branch also acks, so the callback
acks exactly once and never raises to its caller.  `parseOk` is whether
`json.loads` succeeded, `handlerRaises` whether the type-specific
handler raised; the second component is whether the callback itself
raises (it never does — every exception is caught). -/
def serviceProcessMessageAcks (parseOk handlerRaises : Bool) :
    List AckAction × Bool :=
  if parseOk then
    if handlerRaises then ([AckAction.ack], false)
    else ([AckAction.ack], false)
  else ([AckAction.ack], false)

/-- Whether the user handler passed to `ServiceBroker.receive_messages`
returns normally or raises on a given message. -/
inductive HandlerRun where
  | ok
  | raises
deriving DecidableEq, Repr

/-- `ServiceBroker.receive_messages`' `wrapped_callback`: parse the JSON
body (`parsed = none` models a `JSONDecodeError`), call the user's
callback, and ack; on a JSON parse failure `basic_nack(requeue=False)`,
on any other error `basic_nack(requeue=True)`. -/
def wrappedCallback (parsed : Option (List (String × Json)))
    (run : HandlerRun) : List AckAction :=
  match parsed with
  | none => [AckAction.nack false]
  | some _ =>
      match run with
      | HandlerRun.ok => [AckAction.ack]
      | HandlerRun.raises => [AckAction.nack true]

/-- Consumer-registration state of a `ServiceBroker`: the handler whose
consumer thread is alive, if any (handlers named by numeric tokens). -/
structure ServiceBrokerConsumer where
  activeHandler : Option Nat
deriving DecidableEq, Repr

/-- `ServiceBroker.receive_messages`: if no consumer thread is alive,
start one running the new handler and return True; otherwise log
"already consuming" and return False — the previous handler stays
active and the new one is dropped. -/
def receiveMessages (s : ServiceBrokerConsumer) (h : Nat) :
    ServiceBrokerConsumer × Bool :=
  match s.activeHandler with
  | none => ({ activeHandler := some h }, true)
  | some _ => (s, false)

/-- Consumer state of a `RabbitMQClient`: the `_callbacks` dict mapping
queue names to the registered callback. -/
structure ClientState where
  callbacks : List (String × Nat)
deriving DecidableEq, Repr

/-- `RabbitMQClient.consume`: stop and deregister any existing consumer
for the queue, declare the queue (returning False if that fails), then
start a consumer thread that records the new callback under the queue
name and return True. -/
def clientConsume (s : ClientState) (q : String) (h : Nat)
    (declareOk : Bool) : ClientState × Bool :=
  let s1 : ClientState :=
    if containsKey s.callbacks q then { callbacks := removeKey s.callbacks q }
    else s
  if declareOk then ({ callbacks := setKey s1.callbacks q h }, true)
  else (s1, false)

/-- The exchange name used throughout (`SERVICE_EXCHANGE`). -/
def serviceExchange : String := "service_exchange"

/-- The per-service queue name (`FRONTEND_QUEUE` / `BACKEND_QUEUE` /
`DATABASE_QUEUE`, as selected by `start_consuming` /
`consume_with_callback` from `service_name`). -/
def queueName : Service → String
  | Service.frontend => "frontend_queue"
  | Service.backend => "backend_queue"
  | Service.database => "database_queue"

/-- The wildcard binding pattern for a service's queue
(`"*.to.frontend"` etc. in `MessageBroker.connect`). -/
def bindingPattern (svc : Service) : String := "*.to." ++ svc.name

/-- The three queue declarations `MessageBroker.connect` always makes. -/
def connectQueueDeclarations : List String :=
  ["frontend_queue", "backend_queue", "database_queue"]

/-- The three bindings `MessageBroker.connect` always applies. -/
def connectBindings : List Binding :=
  [{ queue := "frontend_queue", exchange := serviceExchange,
      pattern := "*.to.frontend" },
    { queue := "backend_queue", exchange := serviceExchange,
      pattern := "*.to.backend" },
    { queue := "database_queue", exchange := serviceExchange,
      pattern := "*.to.database" }]

/-- The fabric operations `MessageBroker.connect` performs after opening
the connection: declare the topic exchange, declare all three standard
queues, and bind all three queues — the same list for every service;
`connect` never reads `service_name` to narrow the declarations. -/
def connectDeclarations (_svc : Service) : List FabricAction :=
  FabricAction.declareExchange serviceExchange ::
    connectQueueDeclarations.map FabricAction.declareQueue ++
      connectBindings.map FabricAction.bindQueue

/-- The bindings among a list of fabric operations. -/
def bindingsOf (actions : List FabricAction) : List Binding :=
  actions.filterMap fun a =>
    match a with
    | FabricAction.bindQueue b => some b
    | _ => none

/-- The fabric's binding table and the effect of `queue_bind` on it.
Modelled from the spec: the broker itself is outside the repository
(spec §1, §6) and `bindQueue` is specified as idempotent — binding a
queue with a pattern it already has is a no-op, not an error. -/
def applyBinding (bs : List Binding) (b : Binding) : List Binding :=
  if b ∈ bs then bs else bs ++ [b]

/-- Segment-wise topic-pattern matching; `*` matches exactly one
segment.  Modelled from the spec: the fabric's topic-pattern matching is
external (spec §1, §5 "topic-pattern matching"); the repository only
uses single-`*` patterns, so the `#` wildcard is not modelled. -/
def segmentsMatch : List String → List String → Bool
  | [], [] => true
  | p :: ps, k :: ks => (p = "*" || p = k) && segmentsMatch ps ks
  | _, _ => false

/-- Whether a topic pattern matches a routing key. -/
def topicMatches (pattern key : String) : Bool :=
  segmentsMatch (dotSegments pattern) (dotSegments key)
end Messaging

namespace Messaging

/-- Setting a key makes it present with the written value. -/
theorem lookupKey_setKey_self {β : Type} (m : List (String × β)) (k : String)
    (v : β) : lookupKey (setKey m k v) k = some v := by
  induction m with
  | nil => simp [setKey, lookupKey]
  | cons kv rest ih =>
      by_cases h : kv.1 = k
      · simp [setKey, h, lookupKey]
      · simp [setKey, h, lookupKey, ih]

/-- Setting a key leaves every other key unchanged. -/
theorem lookupKey_setKey_ne {β : Type} (m : List (String × β)) {k k' : String}
    (v : β) (h : k' ≠ k) :
    lookupKey (setKey m k v) k' = lookupKey m k' := by
  induction m with
  | nil => simp [setKey, lookupKey, Ne.symm h]
  | cons kv rest ih =>
      by_cases hk : kv.1 = k
      · simp [setKey, hk, lookupKey, Ne.symm h]
      · by_cases hk' : kv.1 = k'
        · simp [setKey, hk, lookupKey, hk', h]
        · simp [setKey, hk, lookupKey, hk', ih]

/-- A deleted key is no longer present. -/
theorem lookupKey_removeKey_self {β : Type} (m : List (String × β))
    (k : String) : lookupKey (removeKey m k) k = none := by
  induction m with
  | nil => simp [removeKey, lookupKey]
  | cons kv rest ih =>
      by_cases h : kv.1 = k
      · simpa [removeKey, h, lookupKey] using ih
      · simpa [removeKey, h, lookupKey] using ih

/-- A deleted key is no longer a member. -/
theorem containsKey_removeKey_self {β : Type} (m : List (String × β))
    (k : String) : containsKey (removeKey m k) k = false := by
  simp [containsKey, lookupKey_removeKey_self]

/-- Splitting any of the nine routing keys recovers the three parts. -/
theorem dotSegments_routingKey :
    ∀ source target : Service,
      dotSegments (routingKey source target)
        = [source.name, "to", target.name] := by
  decide

/-- Every service name is a valid `send_message` target. -/
theorem name_mem_validServices : ∀ t : Service, t.name ∈ validServices := by
  decide

/-- The `send_message` dispatch maps each service name to its service. -/
theorem serviceOfName_name : ∀ t : Service, serviceOfName t.name = some t := by
  decide

/-- A successful publish: `_send_targeted_message` performs exactly the
one publish and returns the generated message id. -/
theorem sendTo_ok (source target : Service) (message : List (String × Json))
    (mid ts : String) :
    sendTo source.name target message mid ts PublishOutcome.ok
      = ([FabricAction.publish (publishOf source target message mid ts)],
          Except.ok mid) := by
  unfold sendTo sendTargetedMessage
  rw [show source.name ++ ".to." ++ target.name = routingKey source target
        from rfl,
    dotSegments_routingKey]
  rfl

/-- A failed publish: `_send_targeted_message` re-raises and no fabric
interaction succeeds. -/
theorem sendTo_err (source target : Service) (message : List (String × Json))
    (mid ts e : String) :
    sendTo source.name target message mid ts (PublishOutcome.err e)
      = ([], Except.error e) := by
  unfold sendTo sendTargetedMessage
  rw [show source.name ++ ".to." ++ target.name = routingKey source target
        from rfl,
    dotSegments_routingKey]

/-- Claim C2: for every source and target in {frontend, backend, database}
the routing key computed at send time equals
`source ++ "." ++ "to" ++ "." ++ target`; the derivation is a pure total
function of the pair, and the last dotted segment of the key is the target
name, so taking the last segment inverts the derivation. -/
theorem routingKey_spec :
    ∀ source target : Service,
      routingKey source target
          = source.name ++ "." ++ "to" ++ "." ++ target.name
        ∧ lastDotSegment (routingKey source target) = target.name := by
  decide


/-- Claim C1: an inbound reply whose request id matches a pending request
removes the entry from `pending_requests` and delivers the reply payload
once; handling a subsequent reply with the same id finds no pending
entry, is ignored with a logged warning rather than an error, and leaves
the table unchanged. -/
theorem reply_fills_pending_exactly_once
    (pending message : List (String × Json)) (rid : String)
    (hid : lookupKey message "request_id" = some (Json.str rid))
    (hpend : containsKey pending rid = true) :
    (handleSearchResults pending message).2
        = SearchOutcome.delivered rid
            ((lookupKey message "results").getD (Json.arr []))
            ((lookupKey message "count").getD (Json.num 0))
      ∧ containsKey (handleSearchResults pending message).1 rid = false
      ∧ handleSearchResults (handleSearchResults pending message).1 message
          = ((handleSearchResults pending message).1,
              SearchOutcome.unknownRequest (some (Json.str rid))) := by
  have h1 : handleSearchResults pending message
      = (removeKey pending rid,
          SearchOutcome.delivered rid
            ((lookupKey message "results").getD (Json.arr []))
            ((lookupKey message "count").getD (Json.num 0))) := by
    unfold handleSearchResults
    rw [hid]
    simp [hpend]
  have h2 : handleSearchResults (removeKey pending rid) message
      = (removeKey pending rid,
          SearchOutcome.unknownRequest (some (Json.str rid))) := by
    unfold handleSearchResults
    rw [hid]
    simp [containsKey_removeKey_self]
  rw [h1]
  exact ⟨rfl, containsKey_removeKey_self pending rid, h2⟩

/-- Witness for C1 on a concrete pending table and reply. -/
theorem reply_fills_pending_exactly_once_wit :
    (handleSearchResults [("req-1", pendingEntry 0 (Json.obj []))]
        [("type", Json.str "search_results"),
          ("request_id", Json.str "req-1"),
          ("results", Json.arr [Json.str "evt-1"]),
          ("count", Json.num 1)]).2
        = SearchOutcome.delivered "req-1" (Json.arr [Json.str "evt-1"])
            (Json.num 1)
      ∧ containsKey
          (handleSearchResults [("req-1", pendingEntry 0 (Json.obj []))]
            [("type", Json.str "search_results"),
              ("request_id", Json.str "req-1"),
              ("results", Json.arr [Json.str "evt-1"]),
              ("count", Json.num 1)]).1 "req-1" = false
      ∧ handleSearchResults
          (handleSearchResults [("req-1", pendingEntry 0 (Json.obj []))]
            [("type", Json.str "search_results"),
              ("request_id", Json.str "req-1"),
              ("results", Json.arr [Json.str "evt-1"]),
              ("count", Json.num 1)]).1
          [("type", Json.str "search_results"),
            ("request_id", Json.str "req-1"),
            ("results", Json.arr [Json.str "evt-1"]),
            ("count", Json.num 1)]
          = ((handleSearchResults [("req-1", pendingEntry 0 (Json.obj []))]
              [("type", Json.str "search_results"),
                ("request_id", Json.str "req-1"),
                ("results", Json.arr [Json.str "evt-1"]),
                ("count", Json.num 1)]).1,
              SearchOutcome.unknownRequest (some (Json.str "req-1"))) :=
  reply_fills_pending_exactly_once
    [("req-1", pendingEntry 0 (Json.obj []))]
    [("type", Json.str "search_results"),
      ("request_id", Json.str "req-1"),
      ("results", Json.arr [Json.str "evt-1"]),
      ("count", Json.num 1)]
    "req-1" rfl rfl

/-- Claim C3 counterexample: a request registered at time 0 with no reply
is still pending after 3600 time units — the entry is not removed when
any timeout elapses, and no timeout signal is ever produced (no code in
the repository sweeps `pending_requests` or raises a timeout for it). -/
theorem pending_entry_survives_timeout :
    containsKey
        (tick (sendSearchRequest frontendInit "req-1"
            (Json.obj [("keyword", Json.str "jazz")])).1 3600).pending
        "req-1" = true
      ∧ (tick (sendSearchRequest frontendInit "req-1"
            (Json.obj [("keyword", Json.str "jazz")])).1 3600).pending
          = (sendSearchRequest frontendInit "req-1"
              (Json.obj [("keyword", Json.str "jazz")])).1.pending :=
  ⟨by decide, rfl⟩

/-- Claim C3 amended: the tracker has no expiry — the passage of time
never changes the pending-request table, and a pending entry is removed
only when a `search_results` reply arrives carrying exactly that pending
request id; no timeout outcome is ever delivered to the caller. -/
theorem pending_removed_only_by_reply :
    ∀ (s : FrontendState) (dt : Nat)
      (body : Option (List (String × Json))),
      (tick s dt).pending = s.pending
      ∧ ((frontendProcessMessage s body).1.pending = s.pending
          ∨ ∃ m rid,
              body = some m
              ∧ lookupKey m "request_id" = some (Json.str rid)
              ∧ containsKey s.pending rid = true
              ∧ (frontendProcessMessage s body).1.pending
                  = removeKey s.pending rid) := by
  intro s dt body
  refine ⟨rfl, ?_⟩
  cases body with
  | none => exact Or.inl rfl
  | some m =>
      simp only [frontendProcessMessage]
      by_cases h1 : isType m "event_notification"
      · simp [h1]
      · by_cases h2 : isType m "search_results"
        · simp only [h1, h2, if_true, if_false, Bool.false_eq_true,
            ite_true, ite_false]
          unfold handleSearchResults
          cases hreq : lookupKey m "request_id" with
          | none => simp
          | some v =>
              cases v with
              | str rid =>
                  by_cases hc : containsKey s.pending rid
                  · simp only [hc, ite_true]
                    exact Or.inr ⟨m, rid, rfl, hreq, hc, rfl⟩
                  · simp [hc]
              | null => simp
              | bool b => simp
              | num n => simp
              | arr xs => simp
              | obj fs => simp
        · by_cases h3 : isType m "operation_status"
          · simp [h1, h2, h3]
          · by_cases h4 : isType m "action_received"
            · simp [h1, h2, h3, h4]
            · simp [h1, h2, h3, h4]

/-- Claim C4: for every send to a valid target, either the publish
succeeds — exactly one publish reaches the fabric, carrying the
generated message id as its correlation id, `_send_targeted_message`
returns that id and `send_message` returns Some of it — or the publish
failure is surfaced (re-raised by `_send_targeted_message`, a None
return from `send_message`) with no successful fabric interaction; a
send never reports success without publishing and never silently drops
the message. -/
theorem send_publishes_or_surfaces_error :
    ∀ (source target : Service) (message data : List (String × Json))
      (messageType mid ts : String) (pub : PublishOutcome),
      (pub = PublishOutcome.ok
        ∧ sendTo source.name target message mid ts pub
            = ([FabricAction.publish (publishOf source target message mid ts)],
                Except.ok mid)
        ∧ (publishOf source target message mid ts).correlationId = mid
        ∧ (sendMessage source target.name messageType data mid ts pub).2
            = some mid)
      ∨ (∃ e, pub = PublishOutcome.err e
          ∧ sendTo source.name target message mid ts pub
              = ([], Except.error e)
          ∧ sendMessage source target.name messageType data mid ts pub
              = ([], none)) := by
  intro source target message data messageType mid ts pub
  cases pub with
  | ok =>
      refine Or.inl ⟨rfl, sendTo_ok source target message mid ts, rfl, ?_⟩
      simp [sendMessage, name_mem_validServices target,
        serviceOfName_name target, sendTo_ok]
  | err e =>
      refine Or.inr ⟨e, rfl, sendTo_err source target message mid ts e, ?_⟩
      simp [sendMessage, name_mem_validServices target,
        serviceOfName_name target, sendTo_err]

/-- Claim C7: a send to a target name outside {frontend, backend,
database} is rejected by `send_message` before any fabric interaction:
no publish, declaration or connection activity occurs and the caller
gets None. -/
theorem unknown_target_rejected_before_fabric :
    ∀ (svc : Service) (toService messageType : String)
      (data : List (String × Json)) (mid ts : String)
      (pub : PublishOutcome),
      toService ∉ validServices →
      sendMessage svc toService messageType data mid ts pub = ([], none) := by
  intro svc toService messageType data mid ts pub h
  unfold sendMessage
  rw [if_pos h]

/-- Witness for C7: sending to the unknown target "cache". -/
theorem unknown_target_rejected_before_fabric_wit :
    sendMessage Service.backend "cache" "query" [] "id-1" "T0"
        PublishOutcome.ok = ([], none) :=
  unknown_target_rejected_before_fabric Service.backend "cache" "query"
    [] "id-1" "T0" PublishOutcome.ok (by decide)
/-- An already-present binding is a no-op to apply (fabric idempotence,
spec interface). -/
theorem applyBinding_idem (bs : List Binding) (b : Binding) :
    applyBinding (applyBinding bs b) b = applyBinding bs b := by
  by_cases h : b ∈ bs
  · simp [applyBinding, h]
  · simp [applyBinding, h, List.mem_append]

/-- `RabbitMQClient.consume` leaves the new handler registered for the
queue when the declaration succeeds. -/
theorem clientConsume_registers (s : ClientState) (q : String) (h : Nat) :
    lookupKey (clientConsume s q h true).1.callbacks q = some h := by
  unfold clientConsume
  by_cases hc : containsKey s.callbacks q
  · simp [hc, lookupKey_setKey_self]
  · simp [hc, lookupKey_setKey_self]

/-- Claim C5 counterexample: in `ServiceBroker.receive_messages` a
delivery whose handler raises is negatively acknowledged with
requeue=True — it is not acknowledged, contradicting the claim that a
handler error never causes a negative acknowledgement or requeue. -/
theorem handler_error_nacks :
    wrappedCallback (some [("type", Json.str "query")]) HandlerRun.raises
        = [AckAction.nack true]
      ∧ [AckAction.nack true] ≠ [AckAction.ack] :=
  ⟨rfl, by decide⟩

/-- Claim C5 amended: in `MessageBroker.consume_with_callback` composed
with the frontend/backend service callbacks a delivery is acknowledged
exactly once whether the handler succeeds, its processing raises or the
body fails to parse; but in `ServiceBroker.receive_messages` the
delivery is instead nacked without requeue on a JSON parse failure and
nacked with requeue on a handler error (acked only on success — always
exactly one ack/nack operation). -/
theorem ack_policy_amended :
    ∀ (parseOk handlerRaises : Bool)
      (parsed : Option (List (String × Json))) (run : HandlerRun),
      callbackWrapper (serviceProcessMessageAcks parseOk handlerRaises).1
          (serviceProcessMessageAcks parseOk handlerRaises).2
        = [AckAction.ack]
      ∧ (∀ (s : FrontendState) (body : Option (List (String × Json))),
          (frontendProcessMessage s body).2.2 = [AckAction.ack])
      ∧ (wrappedCallback parsed run).length = 1
      ∧ (parsed = none → wrappedCallback parsed run = [AckAction.nack false])
      ∧ (∀ m, parsed = some m → run = HandlerRun.raises →
          wrappedCallback parsed run = [AckAction.nack true])
      ∧ (∀ m, parsed = some m → run = HandlerRun.ok →
          wrappedCallback parsed run = [AckAction.ack]) := by
  intro parseOk handlerRaises parsed run
  refine ⟨?_, ?_, ?_, ?_, ?_, ?_⟩
  · cases parseOk <;> cases handlerRaises <;> rfl
  · intro s body
    cases body with
    | none => rfl
    | some m =>
        by_cases e1 : isType m "event_notification" <;>
          by_cases e2 : isType m "search_results" <;>
            by_cases e3 : isType m "operation_status" <;>
              by_cases e4 : isType m "action_received" <;>
                simp [frontendProcessMessage, e1, e2, e3, e4]
  · cases parsed with
    | none => rfl
    | some m => cases run <;> rfl
  · intro h; subst h; rfl
  · intro m hm hr; subst hm; subst hr; rfl
  · intro m hm hr; subst hm; subst hr; rfl

/-- Witness for C5's amended theorem at concrete inputs. -/
theorem ack_policy_amended_wit :
    callbackWrapper (serviceProcessMessageAcks true true).1
        (serviceProcessMessageAcks true true).2 = [AckAction.ack]
      ∧ wrappedCallback (some []) HandlerRun.raises = [AckAction.nack true] :=
  ⟨(ack_policy_amended true true (some []) HandlerRun.raises).1,
    (ack_policy_amended true true (some []) HandlerRun.raises).2.2.2.2.1
      [] rfl rfl⟩

/-- Claim C6 counterexample: the frontend's connect declares three queue
bindings, not exactly one binding for itself — among them a binding of
the backend's queue. -/
theorem connect_declares_three_bindings :
    (bindingsOf (connectDeclarations Service.frontend)).length = 3
      ∧ ({ queue := "backend_queue", exchange := serviceExchange,
            pattern := "*.to.backend" } : Binding)
          ∈ bindingsOf (connectDeclarations Service.frontend) := by
  decide

/-- Claim C6 amended: every service's connect declares all three queues
and all three `*.to.<service>` bindings (the same list regardless of the
connecting service), exactly one of which is the service's own queue
bound with pattern `*.to.<service>`; applying an already-present binding
to the fabric's binding table is a no-op rather than an error; and the
pattern `*.to.<svc>` matches precisely the routing keys addressed to
svc, so each queue receives exactly its service's addressed traffic. -/
theorem connect_bindings_amended :
    ∀ svc : Service,
      bindingsOf (connectDeclarations svc) = connectBindings
      ∧ connectBindings.count
          { queue := queueName svc, exchange := serviceExchange,
            pattern := bindingPattern svc } = 1
      ∧ (∀ (bs : List Binding) (b : Binding),
          applyBinding (applyBinding bs b) b = applyBinding bs b)
      ∧ (∀ source target : Service,
          topicMatches (bindingPattern svc) (routingKey source target)
              = true
            ↔ target = svc) := by
  intro svc
  refine ⟨rfl, ?_, fun bs b => applyBinding_idem bs b, ?_⟩
  · cases svc <;> decide
  · cases svc <;> decide

/-- Claim C8 counterexample: wrapping overwrites a payload's own
"source_service" entry, so unwrapping the published body does not
reproduce the original payload: the entry ("source_service" ↦ "evil")
comes back as ("source_service" ↦ "backend"). -/
theorem roundtrip_overwrites_reserved_key :
    lookupKey (wrapMessage [("source_service", Json.str "evil")]
        "backend" "frontend" "T0") "source_service"
        = some (Json.str "backend")
      ∧ Json.str "backend" ≠ Json.str "evil" := by
  constructor
  · rfl
  · intro h
    injection h with h'
    exact absurd h' (by decide)

/-- Claim C8 amended: for every payload whose keys avoid the reserved
metadata keys (source_service, target_service, timestamp), unwrapping
the wrapped body — the JSON dict as published; `json.loads` of
`json.dumps` is the identity on it — reproduces every original entry,
and the source/target metadata read back are the sending service and
the addressed target. -/
theorem wrap_roundtrip_on_disjoint_payloads :
    ∀ (payload : List (String × Json)) (source target : Service)
      (ts : String),
      containsKey payload "source_service" = false →
      containsKey payload "target_service" = false →
      containsKey payload "timestamp" = false →
      (∀ k v, lookupKey payload k = some v →
          lookupKey (wrapMessage payload source.name target.name ts) k
            = some v)
      ∧ lookupKey (wrapMessage payload source.name target.name ts)
          "source_service" = some (Json.str source.name)
      ∧ lookupKey (wrapMessage payload source.name target.name ts)
          "target_service" = some (Json.str target.name)
      ∧ lookupKey (wrapMessage payload source.name target.name ts)
          "timestamp" = some (Json.str ts) := by
  intro payload source target ts h1 h2 h3
  refine ⟨?_, ?_, ?_, ?_⟩
  · intro k v hk
    have hk1 : k ≠ "source_service" := by
      intro he; rw [he] at hk; simp [containsKey, hk] at h1
    have hk2 : k ≠ "target_service" := by
      intro he; rw [he] at hk; simp [containsKey, hk] at h2
    have hk3 : k ≠ "timestamp" := by
      intro he; rw [he] at hk; simp [containsKey, hk] at h3
    unfold wrapMessage
    rw [lookupKey_setKey_ne _ _ hk3, lookupKey_setKey_ne _ _ hk2,
      lookupKey_setKey_ne _ _ hk1]
    exact hk
  · unfold wrapMessage
    rw [lookupKey_setKey_ne _ _ (by decide), lookupKey_setKey_ne _ _
      (by decide), lookupKey_setKey_self]
  · unfold wrapMessage
    rw [lookupKey_setKey_ne _ _ (by decide), lookupKey_setKey_self]
  · unfold wrapMessage
    rw [lookupKey_setKey_self]

/-- Witness for C8's amended theorem on a concrete payload. -/
theorem wrap_roundtrip_on_disjoint_payloads_wit :
    lookupKey (wrapMessage [("keyword", Json.str "jazz")]
        "backend" "frontend" "T0") "keyword" = some (Json.str "jazz")
      ∧ lookupKey (wrapMessage [("keyword", Json.str "jazz")]
          "backend" "frontend" "T0") "source_service"
          = some (Json.str "backend")
      ∧ lookupKey (wrapMessage [("keyword", Json.str "jazz")]
          "backend" "frontend" "T0") "target_service"
          = some (Json.str "frontend") :=
  have H := wrap_roundtrip_on_disjoint_payloads
    [("keyword", Json.str "jazz")] Service.backend Service.frontend "T0"
    (by decide) (by decide) (by decide)
  ⟨H.1 "keyword" (Json.str "jazz") rfl, H.2.1, H.2.2.1⟩

/-- Claim C9 counterexample: `_send_targeted_message` mutates the
caller's payload dict in place — after the send the mapping has gained
a "timestamp" entry (and carries the routing metadata inside the
payload), so the payload is not left unchanged. -/
theorem send_mutates_payload :
    wrapMessage [("keyword", Json.str "jazz")] "backend" "frontend" "T0"
      ≠ [("keyword", Json.str "jazz")] := by
  intro h
  have hw : containsKey
      (wrapMessage [("keyword", Json.str "jazz")] "backend" "frontend"
        "T0") "timestamp" = true := by decide
  rw [h] at hw
  exact absurd hw (by decide)

/-- Claim C9 amended: the send inspects no payload semantics — its only
payload access is writing the three reserved metadata keys into the
caller's dict in place; every key other than source_service,
target_service and timestamp is left unchanged. -/
theorem send_touches_only_reserved_keys :
    ∀ (payload : List (String × Json)) (sname tname ts k : String),
      k ≠ "source_service" → k ≠ "target_service" → k ≠ "timestamp" →
      lookupKey (wrapMessage payload sname tname ts) k
        = lookupKey payload k := by
  intro payload sname tname ts k h1 h2 h3
  unfold wrapMessage
  rw [lookupKey_setKey_ne _ _ h3, lookupKey_setKey_ne _ _ h2,
    lookupKey_setKey_ne _ _ h1]

/-- Witness for C9's amended theorem at a concrete key. -/
theorem send_touches_only_reserved_keys_wit :
    lookupKey (wrapMessage [("keyword", Json.str "jazz")]
        "backend" "frontend" "T0") "keyword"
      = lookupKey [("keyword", Json.str "jazz")] "keyword" :=
  send_touches_only_reserved_keys [("keyword", Json.str "jazz")]
    "backend" "frontend" "T0" "keyword" (by decide) (by decide) (by decide)

/-- Claim C10 counterexample: registering a second handler on a
`ServiceBroker` whose consumer is active does not replace the first —
the call returns False and handler 1 stays active. -/
theorem rereg_does_not_replace :
    receiveMessages (receiveMessages { activeHandler := none } 1).1 2
      = ({ activeHandler := some 1 }, false) := rfl

/-- Claim C10 amended: `RabbitMQClient.consume` does replace — after
re-registering for a queue the new handler is the registered callback —
but `ServiceBroker.receive_messages` does not: while a consumer is
active a new registration returns False and the previous handler
remains the active one (a first registration on an idle broker
succeeds). -/
theorem handler_reregistration_amended :
    ∀ (c : ClientState) (q : String) (h1 h2 : Nat)
      (s : ServiceBrokerConsumer) (h : Nat),
      lookupKey
          (clientConsume (clientConsume c q h1 true).1 q h2 true).1.callbacks
          q = some h2
      ∧ (s.activeHandler = none →
          receiveMessages s h = ({ activeHandler := some h }, true))
      ∧ (∀ h0, s.activeHandler = some h0 →
          receiveMessages s h = (s, false)) := by
  intro c q h1 h2 s h
  refine ⟨clientConsume_registers _ q h2, ?_, ?_⟩
  · intro hn
    unfold receiveMessages
    rw [hn]
  · intro h0 hs
    unfold receiveMessages
    rw [hs]

/-- Witness for C10's amended theorem at concrete inputs. -/
theorem handler_reregistration_amended_wit :
    lookupKey
        (clientConsume
          (clientConsume { callbacks := [] } "backend_queue" 1 true).1
          "backend_queue" 2 true).1.callbacks "backend_queue" = some 2
      ∧ receiveMessages { activeHandler := some 5 } 7
          = ({ activeHandler := some 5 }, false) :=
  ⟨(handler_reregistration_amended { callbacks := [] } "backend_queue"
      1 2 { activeHandler := some 5 } 7).1,
    (handler_reregistration_amended { callbacks := [] } "backend_queue"
      1 2 { activeHandler := some 5 } 7).2.2 5 rfl⟩

end Messaging
